import Mathlib

/-!
Verification of the hackgenX client-side state/cache coordinator and its
backend complaint controller, shallowly embedded from the TypeScript and
JavaScript sources (src/Frontend/src/lib/api.ts, the AppContext provider
snapshots, src/backend/src/controllers/ComplaintController.js).
-/

/-! ## JS string and truthiness helpers -/

/-- Prefix test on character lists (building block of substring search). -/
def charsPrefixOf : List Char → List Char → Bool
  | [], _ => true
  | _ :: _, [] => false
  | a :: as, b :: bs => a == b && charsPrefixOf as bs

/-- Substring search on character lists. -/
def charsContains (pat : List Char) : List Char → Bool
  | [] => charsPrefixOf pat []
  | c :: rest => charsPrefixOf pat (c :: rest) || charsContains pat rest

/-- JS `s.includes(pat)`: substring containment. -/
def strContains (s pat : String) : Bool :=
  charsContains pat.toList s.toList

/-- ASCII lowering of a string, modelling JS `toLowerCase` on the ASCII
messages this code base produces. -/
def lowerStr (s : String) : String :=
  (s.toList.map Char.toLower).asString

/-- JS `a || b` on strings: empty string is falsy. -/
def jsOrS (a b : String) : String := if a == "" then b else a

/-- JS `a || b` on numbers restricted to naturals: 0 is falsy. -/
def jsOrN (a b : Nat) : Nat := if a == 0 then b else a

/-! ## Response cache (api.ts lines 25-48) -/

/-- A response-cache entry: payload (abstracted to a number) plus the
`Date.now()` timestamp at which it was written. -/
structure CacheEntry where
  data : Nat
  ts : Nat
deriving DecidableEq, Repr

/-- `cache.get(key)` over the association-list model of the JS `Map`. -/
def alistLookup {α : Type} (l : List (String × α)) (k : String) : Option α :=
  match l.find? (fun p => p.1 == k) with
  | none => none
  | some p => some p.2

/-- `cache.delete(key)` over the association-list model of the JS `Map`. -/
def alistRemove {α : Type} (l : List (String × α)) (k : String) : List (String × α) :=
  l.filter (fun p => !(p.1 == k))

/-- Lookup in the response cache. -/
def cacheGet (c : List (String × CacheEntry)) (k : String) : Option CacheEntry :=
  alistLookup c k

/-- `CACHE_TTL = 15_000` from api.ts line 29. -/
def CACHE_TTL : Nat := 15000

/-- `getCached` (api.ts lines 31-36): returns the cached payload if the
entry is within TTL; an over-TTL entry is deleted and treated as absent.
Returns the payload (if any) together with the possibly-updated cache. -/
def getCached (c : List (String × CacheEntry)) (key : String) (now : Nat) :
    Option Nat × List (String × CacheEntry) :=
  match cacheGet c key with
  | none => (none, c)
  | some entry =>
    if now - entry.ts > CACHE_TTL then (none, alistRemove c key)
    else (some entry.data, c)

/-- `setCached` (api.ts line 38): `cache.set(key, { data, ts: Date.now() })`. -/
def setCached (c : List (String × CacheEntry)) (key : String) (data now : Nat) :
    List (String × CacheEntry) :=
  (key, ⟨data, now⟩) :: alistRemove c key

/-- `invalidateCache(...patterns)` (api.ts lines 44-48): delete every key
that contains one of the patterns as a substring. -/
def invalidateCache (patterns : List String) (c : List (String × CacheEntry)) :
    List (String × CacheEntry) :=
  c.filter (fun p => !(patterns.any (fun q => strContains p.1 q)))

/-! ## Gateway request model (api.ts lines 51-137)

The execution model is the single-threaded event loop described by the
spec: the synchronous prefix of each `request` call runs atomically, so a
set of concurrent callers is a sequence of `startGet` steps followed by one
`settleGet` when the shared promise settles. -/

/-- State of the gateway: response cache, in-flight map (signature to
promise identity), a supply of fresh promise identities, and a counter of
underlying network calls issued. -/
structure GatewayState where
  cache : List (String × CacheEntry)
  inFlight : List (String × Nat)
  nextId : Nat
  netCalls : Nat
deriving DecidableEq, Repr

/-- What a single caller of `request` observes on a GET: a cache hit with
a payload, joining an existing in-flight promise, or starting a fresh
network call (identified by its promise id). -/
inductive GetOutcome where
  | hit (v : Nat)
  | joined (pid : Nat)
  | started (pid : Nat)
deriving DecidableEq, Repr

/-- Synchronous prefix of `request` for a GET (api.ts lines 62-71 and
114-118): consult the cache, else join the in-flight promise, else
register a new in-flight network call. -/
def startGet (st : GatewayState) (sig : String) (now : Nat) :
    GetOutcome × GatewayState :=
  let r := getCached st.cache sig now
  match r.1 with
  | some v => (GetOutcome.hit v, { st with cache := r.2 })
  | none =>
    match alistLookup st.inFlight sig with
    | some pid => (GetOutcome.joined pid, { st with cache := r.2 })
    | none =>
      (GetOutcome.started st.nextId,
       { cache := r.2,
         inFlight := (sig, st.nextId) :: st.inFlight,
         nextId := st.nextId + 1,
         netCalls := st.netCalls + 1 })

/-- Settlement of the shared GET promise (api.ts lines 90-92 and 111-113):
populate the cache on success only, always deregister the in-flight entry. -/
def settleGet (st : GatewayState) (sig : String) (result : Except String Nat)
    (now : Nat) : GatewayState :=
  let c := match result with
    | Except.ok v => setCached st.cache sig v now
    | Except.error _ => st.cache
  { st with cache := c, inFlight := alistRemove st.inFlight sig }

/-- N concurrent GET callers with the same signature, issued before any of
them settles: their synchronous prefixes run back to back. -/
def startGetN : Nat → GatewayState → String → Nat → List GetOutcome × GatewayState
  | 0, st, _, _ => ([], st)
  | n + 1, st, sig, now =>
    let r := startGet st sig now
    let rest := startGetN n r.2 sig now
    (r.1 :: rest.1, rest.2)

/-- `options.method` check (api.ts line 63): a request is a GET when no
method is given or the method is the string GET. -/
def isGetMethod : Option String → Bool
  | none => true
  | some m => m == "GET"

/-- Synchronous prefix of `request` for an arbitrary method: non-GET
requests never consult the cache or the in-flight map and always issue a
fresh network call. -/
def startRequest (st : GatewayState) (method : Option String) (sig : String)
    (now : Nat) : GetOutcome × GatewayState :=
  if isGetMethod method then startGet st sig now
  else
    (GetOutcome.started st.nextId,
     { st with nextId := st.nextId + 1, netCalls := st.netCalls + 1 })

/-- Settlement for an arbitrary method: only GETs populate the cache or
touch the in-flight map. -/
def settleRequest (st : GatewayState) (method : Option String) (sig : String)
    (result : Except String Nat) (now : Nat) : GatewayState :=
  if isGetMethod method then settleGet st sig result now else st

/-! ## Retry / auth classification (api.ts lines 94-113) -/

/-- The gateway failure classification (api.ts lines 99-103): the lowered
message matches authentication-failure vocabulary. -/
def isAuthError (msg : String) : Bool :=
  let m := lowerStr msg
  strContains m "401" || strContains m "403" ||
  strContains m "unauthorized" || strContains m "not authorized" ||
  strContains m "jwt" || strContains m "token"

/-- Accumulating splitter over characters (structural, so that concrete
endpoints evaluate inside the kernel). -/
def splitCharsAux (sep : Char) : List Char → List Char → List String
  | acc, [] => [acc.reverse.asString]
  | acc, c :: rest =>
    if c == sep then acc.reverse.asString :: splitCharsAux sep [] rest
    else splitCharsAux sep (c :: acc) rest

/-- `endpoint.split(sep)` for the single-character separator slash. -/
def splitSlash (s : String) : List String := splitCharsAux '/' [] s.toList

/-- The regex test of api.ts line 124 on the endpoints the client builds:
a path of the shape slash complaints slash id slash action, with action
one of status, resolve, support, feedback. -/
def isComplaintItemMutation (endpoint : String) : Bool :=
  match splitSlash endpoint with
  | [e0, e1, id, action] =>
    e0 == "" && e1 == "complaints" && id != "" &&
    (action == "status" || action == "resolve" ||
     action == "support" || action == "feedback")
  | _ => false

/-- `endpoint.split(slash)[2]` (api.ts line 126). -/
def complaintIdOf (endpoint : String) : String :=
  (splitSlash endpoint).getD 2 ""

/-- The invalidation step of `mutate` (api.ts lines 122-137), run before
the gateway call is issued. -/
def mutateInvalidate (endpoint : String) (c : List (String × CacheEntry)) :
    List (String × CacheEntry) :=
  if isComplaintItemMutation endpoint then
    invalidateCache
      ["/complaints/" ++ complaintIdOf endpoint, "/complaints?", "/complaints/stats"] c
  else if strContains endpoint "/complaints" then
    invalidateCache ["/complaints", "/complaints/stats"] c
  else if strContains endpoint "/auth" then
    invalidateCache ["/auth"] c
  else if strContains endpoint "/users" then
    invalidateCache ["/users"] c
  else c

/-! ## Coordinator data model (AppContext snapshots) -/

/-- The feedback sub-record (rating, comment, tri-state resolution). -/
structure Feedback where
  rating : Nat
  comment : String
  resolved : String
deriving DecidableEq, Repr

/-- A complaint as the coordinator holds it.  `mongoId` models the
underscore-id storage identifier. -/
structure Complaint where
  id : String
  mongoId : String
  complaintId : String
  status : String
  adminNote : String
  assignedOfficer : String
  updatedAt : String
  supportCount : Nat
  resolvePhoto : String
  feedback : Option Feedback
deriving DecidableEq, Repr

/-- `normaliseComplaint` (AppContext): repopulate the three id aliases via
JS truthiness fallbacks. -/
def normaliseComplaint (c : Complaint) : Complaint :=
  { c with
    id := jsOrS c.complaintId (jsOrS c.id c.mongoId),
    mongoId := jsOrS c.mongoId c.id,
    complaintId := jsOrS c.complaintId (jsOrS c.id c.mongoId) }

/-- `matchId(c, id)` (AppContext): nonempty id matching any of the three
aliases. -/
def matchId (c : Complaint) (id : String) : Bool :=
  id != "" && (c.id == id || c.complaintId == id || c.mongoId == id)

/-- `getMongoId(complaints, humanId)` (AppContext): resolve the storage id
from a human-facing id via local lookup. -/
def getMongoId (cs : List Complaint) (humanId : String) : String :=
  match cs.find? (fun c => matchId c humanId) with
  | none => humanId
  | some found => jsOrS found.mongoId (jsOrS found.complaintId (jsOrS found.id humanId))

/-- The user as the coordinator holds it. -/
structure User where
  uid : String
  mongoUid : String
  name : String
  role : String
  points : Nat
  badge : String
deriving DecidableEq, Repr

/-- `normaliseUser` (AppContext): id becomes underscore-id or id. -/
def normaliseUser (u : User) : User :=
  { u with uid := jsOrS u.mongoUid u.uid }

/-- `calcBadge` (AppContext, part mirroring the backend thresholds). -/
def calcBadge (points : Nat) : String :=
  if 1000 ≤ points then "Gold" else if 500 ≤ points then "Silver" else "Bronze"

/-- Coordinator state relevant to the mutation flows: the in-memory
complaint list plus its localStorage mirror (the jv underscore complaints
snapshot written by `ls.set`). -/
structure CoordSt where
  complaints : List Complaint
  stored : List Complaint
deriving DecidableEq, Repr

/-- Optimistic patch applied by `updateComplaintStatus` to the matched
item: status, truthy-guarded note and officer, refreshed `updatedAt`. -/
def applyStatusOpt (c : Complaint) (status : String) (note officer : Option String)
    (today : String) : Complaint :=
  { c with
    status := status,
    adminNote := match note with
      | some n => if n == "" then c.adminNote else n
      | none => c.adminNote,
    assignedOfficer := match officer with
      | some o => if o == "" then c.assignedOfficer else o
      | none => c.assignedOfficer,
    updatedAt := today }

/-- `updateComplaintStatus` (optimised AppContext lines 414-444): snapshot,
optimistic apply, gateway call on the resolved storage id, reconcile on
success, restore the snapshot and re-raise on failure.  The network is a
function from the storage id to the server result; the second component of
the result is the re-raised error, if any. -/
def updateComplaintStatusRun (st : CoordSt) (id status : String)
    (note officer : Option String) (today : String)
    (net : String → Except String (Option Complaint)) : CoordSt × Option String :=
  let snapshot := st.complaints
  let optimistic := snapshot.map (fun x =>
    if matchId x id then applyStatusOpt x status note officer today else x)
  let apiId := getMongoId snapshot id
  match net apiId with
  | Except.ok (some c) =>
    let cN := normaliseComplaint c
    let updated := optimistic.map (fun x => if matchId x id then cN else x)
    (⟨updated, updated⟩, none)
  | Except.ok none => (⟨optimistic, optimistic⟩, none)
  | Except.error e => (⟨snapshot, snapshot⟩, some e)

/-- Optimistic patch applied by `resolveComplaint` to the matched item. -/
def applyResolveOpt (c : Complaint) (photo note officer today : String) : Complaint :=
  { c with
    status := "Resolved", resolvePhoto := photo,
    adminNote := note, assignedOfficer := officer, updatedAt := today }

/-- `resolveComplaint` (optimised AppContext lines 447-485), with the same
snapshot / optimistic / reconcile-or-rollback shape. -/
def resolveComplaintRun (st : CoordSt) (id photo note officer today : String)
    (net : String → Except String (Option Complaint)) : CoordSt × Option String :=
  let snapshot := st.complaints
  let optimistic := snapshot.map (fun x =>
    if matchId x id then applyResolveOpt x photo note officer today else x)
  let apiId := getMongoId snapshot id
  match net apiId with
  | Except.ok (some c) =>
    let cN := normaliseComplaint c
    let updated := optimistic.map (fun x => if matchId x id then cN else x)
    (⟨updated, updated⟩, none)
  | Except.ok none => (⟨optimistic, optimistic⟩, none)
  | Except.error e => (⟨snapshot, snapshot⟩, some e)

/-- `deleteComplaint` (optimised AppContext lines 488-501). -/
def deleteComplaintRun (st : CoordSt) (id : String)
    (net : String → Except String Unit) : CoordSt × Option String :=
  let snapshot := st.complaints
  let updated := snapshot.filter (fun x => !matchId x id)
  match net (getMongoId snapshot id) with
  | Except.ok _ => (⟨updated, updated⟩, none)
  | Except.error e => (⟨snapshot, snapshot⟩, some e)

/-- The optimistic step of `supportComplaint` (optimised AppContext lines
506-509): bump the matched support counter through JS truthiness. -/
def optimisticSupport (cs : List Complaint) (id : String) : List Complaint :=
  cs.map (fun x =>
    if matchId x id then { x with supportCount := jsOrN x.supportCount 0 + 1 } else x)

/-- The failure revert of `supportComplaint` (optimised AppContext lines
518-521): decrement the matched counter, clamped at zero. -/
def rollbackSupport (cs : List Complaint) (id : String) : List Complaint :=
  cs.map (fun x =>
    if matchId x id then { x with supportCount := max 0 (jsOrN x.supportCount 1 - 1) } else x)

/-- `supportComplaint` (optimised AppContext lines 504-524): optimistic
increment, server reconcile on success, exact one-unit revert on failure.
The network returns the authoritative support count when present. -/
def supportComplaintRun (cs : List Complaint) (id : String)
    (net : String → Except String (Option Nat)) : List Complaint × Option String :=
  let apiId := getMongoId cs id
  let optimistic := optimisticSupport cs id
  match net apiId with
  | Except.ok (some n) =>
    (optimistic.map (fun x => if matchId x id then { x with supportCount := n } else x), none)
  | Except.ok none => (optimistic, none)
  | Except.error e => (rollbackSupport optimistic id, some e)

/-- Result of a `submitFeedback` coordinator call: the complaint list, the
current user, the re-raised error if any, and whether a network call was
issued. -/
structure FeedbackRunResult where
  complaints : List Complaint
  user : User
  err : Option String
  networkCalled : Bool
deriving DecidableEq, Repr

/-- `submitFeedback` (optimised AppContext lines 527-552): the gateway call
is issued unconditionally (there is no local pre-validation); on success
the matched item is reconciled and the submitter receives 25 points and a
recomputed badge locally. -/
def submitFeedbackRun (cs : List Complaint) (u : User) (id : String) (fb : Feedback)
    (net : String → Except String (Option Complaint)) : FeedbackRunResult :=
  let apiId := getMongoId cs id
  match net apiId with
  | Except.error e => ⟨cs, u, some e, true⟩
  | Except.ok r =>
    let cs2 := match r with
      | some c =>
        let cN := normaliseComplaint c
        cs.map (fun x => if matchId x id then cN else x)
      | none => cs.map (fun x => if matchId x id then { x with feedback := some fb } else x)
    let pts := jsOrN u.points 0 + 25
    ⟨cs2, { u with points := pts, badge := calcBadge pts }, none, true⟩

/-- A patch of profile fields, modelling the `updates` record spread over
the current user in `updateUser`. -/
structure UserPatch where
  name : Option String
  points : Option Nat
  badge : Option String
deriving DecidableEq, Repr

/-- JS object spread of a patch over a user. -/
def applyPatch (u : User) (p : UserPatch) : User :=
  { u with
    name := p.name.getD u.name,
    points := p.points.getD u.points,
    badge := p.badge.getD u.badge }

/-- `updateUser` (optimised AppContext lines 366-383): optimistic merge,
then gateway call; the catch block is empty, so a failure leaves the
optimistic state in place and no error reaches the caller. -/
def updateUserRun (cur : User) (p : UserPatch)
    (net : Except String (Option User)) : User × Option String :=
  let optimistic := applyPatch cur p
  match net with
  | Except.ok (some u) => (normaliseUser u, none)
  | Except.ok none => (optimistic, none)
  | Except.error _ => (optimistic, none)

/-! ## Cold-start session restoration (AppContext init effect) -/

/-- The narrower auth classification of the init effect (AppContext lines
146-151): note it matches only the two-word jwt and token phrases. -/
def isRealAuthError (msg : String) : Bool :=
  let m := lowerStr msg
  strContains m "401" || strContains m "403" ||
  strContains m "jwt expired" || strContains m "token invalid" ||
  strContains m "token expired" || strContains m "not authorized" ||
  strContains m "unauthorized"

/-- Observable events of the init effect, in program order. -/
inductive InitEv where
  | publishUser (u : Option User)
  | netGetMe
deriving DecidableEq, Repr

/-- Final state of the init effect together with its event trace. -/
structure InitResult where
  events : List InitEv
  currentUser : Option User
  tokenPresent : Bool
  storedUser : Option User
deriving DecidableEq, Repr

/-- The init effect (AppContext lines 107-174): with a token present, the
cached user is published synchronously, then `getMe` revalidates in the
background; a response user replaces the session, a response without a
user or a failure matching the narrow auth vocabulary tears the session
down, and any other failure keeps the restored session unchanged. -/
def initRun (tok : Option String) (cached : Option User)
    (net : Except String (Option User)) : InitResult :=
  match tok with
  | none => ⟨[], none, false, cached⟩
  | some _ =>
    let ev0 := match cached with
      | some u => [InitEv.publishUser (some u)]
      | none => []
    match net with
    | Except.ok (some rawU) =>
      let fresh := normaliseUser rawU
      ⟨ev0 ++ [InitEv.netGetMe, InitEv.publishUser (some fresh)],
       some fresh, true, some fresh⟩
    | Except.ok none =>
      ⟨ev0 ++ [InitEv.netGetMe, InitEv.publishUser none], none, false, none⟩
    | Except.error e =>
      if isRealAuthError e then
        ⟨ev0 ++ [InitEv.netGetMe, InitEv.publishUser none], none, false, none⟩
      else
        ⟨ev0 ++ [InitEv.netGetMe], cached, true, cached⟩

/-! ## Backend complaint controller
(src/backend/src/controllers/ComplaintController.js) -/

/-- One step of the fixed four-step timeline (Complaint.js lines 16-20). -/
structure TimelineStep where
  label : String
  done : Bool
  date : Option String
deriving DecidableEq, Repr

/-- The default timeline of a newly created complaint (Complaint.js lines
81-89). -/
def defaultTimeline (createdAt : String) : List TimelineStep :=
  [⟨"Submitted", true, some createdAt⟩,
   ⟨"Under Review", false, none⟩,
   ⟨"In Progress", false, none⟩,
   ⟨"Resolved", false, none⟩]

/-- A complaint as the backend controller sees it. -/
structure ServerComplaint where
  status : String
  citizenId : String
  supportedBy : List String
  supportCount : Nat
  adminNote : String
  assignedOfficer : String
  timeline : List TimelineStep
  feedback : Option Feedback
deriving DecidableEq, Repr

/-- `statusToStep` (ComplaintController.js lines 154-158). -/
def statusToStep (s : String) : Option Nat :=
  if s == "Under Review" then some 1
  else if s == "In Progress" then some 2
  else if s == "Resolved" then some 3
  else none

/-- The timeline loop of `updateStatus` (ComplaintController.js lines
160-167): walking indices i from the given start, each step with
1 <= i <= k that is not yet done becomes done and dated today. -/
def advanceTimeline (today : String) (k : Nat) : Nat → List TimelineStep → List TimelineStep
  | _, [] => []
  | i, s :: rest =>
    (if 1 ≤ i && i ≤ k && !s.done then { s with done := true, date := some today } else s)
    :: advanceTimeline today k (i + 1) rest

/-- `updateStatus` (ComplaintController.js lines 138-180) on a found
complaint: reject an empty status, advance the timeline up to the step of
the new status, set the status and the truthy-guarded admin fields. -/
def updateStatusServer (c : ServerComplaint) (status : String)
    (note officer : Option String) (today : String) : Except String ServerComplaint :=
  if status == "" then Except.error "Status is required"
  else
    let tl := match statusToStep status with
      | some k => advanceTimeline today k 0 c.timeline
      | none => c.timeline
    Except.ok
      { c with
        timeline := tl,
        status := status,
        adminNote := match note with
          | some n => if n == "" then c.adminNote else n
          | none => c.adminNote,
        assignedOfficer := match officer with
          | some o => if o == "" then c.assignedOfficer else o
          | none => c.assignedOfficer }

/-- `supportComplaint` (ComplaintController.js lines 224-248) on a found
complaint: a supporter already in the set is rejected with status 400;
otherwise the supporter is appended and the counter becomes the size of
the set.  Returns the updated complaint and the response supportCount. -/
def supportComplaintServer (c : ServerComplaint) (userId : String) :
    Except String (ServerComplaint × Nat) :=
  if c.supportedBy.contains userId then Except.error "Already supported"
  else
    let sb := c.supportedBy ++ [userId]
    let c2 := { c with supportedBy := sb, supportCount := sb.length }
    Except.ok (c2, c2.supportCount)

/-- `submitFeedback` (ComplaintController.js lines 253-280) on a found
complaint: only the owner of a Resolved complaint without feedback may
rate it, in this checking order; on success the feedback is stored. -/
def submitFeedbackServer (c : ServerComplaint) (userId : String) (fb : Feedback) :
    Except String ServerComplaint :=
  if c.status != "Resolved" then Except.error "Can only rate resolved complaints"
  else if c.citizenId != userId then Except.error "Not your complaint"
  else match c.feedback with
    | some _ => Except.error "Already submitted feedback"
    | none => Except.ok { c with feedback := some fb }

/-! ## Concrete sample values used by witnesses and counterexamples -/

/-- A sample complaint as stored by the coordinator. -/
def cW : Complaint :=
  ⟨"JV-2026-00002", "m1", "JV-2026-00002", "Submitted", "", "", "2026-01-01", 0, "", none⟩

/-- A sample complaint that is not yet resolved (for the feedback flow). -/
def cSub : Complaint :=
  ⟨"JV-2026-00001", "m7", "JV-2026-00001", "Submitted", "", "", "2026-01-01", 0, "", none⟩

/-- A sample citizen user. -/
def uW : User := ⟨"u1", "u1", "Asha", "citizen", 100, "Bronze"⟩

/-- A sample profile patch. -/
def patchW : UserPatch := ⟨some "Asha Devi", none, none⟩

/-- A sample feedback record. -/
def fbW : Feedback := ⟨5, "great work", "yes"⟩

/-- A sample backend complaint with the freshly created default timeline. -/
def scW : ServerComplaint :=
  ⟨"Submitted", "u1", [], 0, "", "", defaultTimeline "2026-01-01", none⟩

/-! ## Helper lemmas -/

theorem alistLookup_remove {α : Type} (l : List (String × α)) (k : String) :
    alistLookup (alistRemove l k) k = none := by
  have h : (alistRemove l k).find? (fun p => p.1 == k) = none := by
    rw [List.find?_eq_none]
    intro p hp
    have hmem := List.mem_filter.mp hp
    simpa using hmem.2
  simp [alistLookup, h]

theorem mem_of_getElemQ {α : Type} :
    ∀ (l : List α) (i : Nat) (a : α), l[i]? = some a → a ∈ l := by
  intro l
  induction l with
  | nil => intro i a h; simp at h
  | cons x t ih =>
    intro i a h
    cases i with
    | zero => simp at h; simp [h]
    | succ n =>
      simp at h
      exact List.mem_cons_of_mem x (ih n a h)

theorem jsOrN_zero (v : Nat) : jsOrN v 0 = v := by
  unfold jsOrN
  split <;> simp_all

theorem startGet_fresh (st : GatewayState) (sig : String) (now : Nat)
    (hc : cacheGet st.cache sig = none) (hf : alistLookup st.inFlight sig = none) :
    startGet st sig now =
      (GetOutcome.started st.nextId,
       ⟨st.cache, (sig, st.nextId) :: st.inFlight, st.nextId + 1, st.netCalls + 1⟩) := by
  simp [startGet, getCached, hc, hf]

theorem startGet_join (st : GatewayState) (sig : String) (now : Nat) (pid : Nat)
    (hc : cacheGet st.cache sig = none) (hf : alistLookup st.inFlight sig = some pid) :
    startGet st sig now = (GetOutcome.joined pid, st) := by
  simp [startGet, getCached, hc, hf]

theorem startGetN_join (sig : String) (now : Nat) (pid : Nat) :
    ∀ (M : Nat) (st : GatewayState), cacheGet st.cache sig = none →
      alistLookup st.inFlight sig = some pid →
      startGetN M st sig now = (List.replicate M (GetOutcome.joined pid), st) := by
  intro M
  induction M with
  | zero => intro st hc hf; rfl
  | succ n ih =>
    intro st hc hf
    simp [startGetN, startGet_join st sig now pid hc hf, ih st hc hf,
      List.replicate_succ]

/-- C2: for any number N of concurrent GET requests with the same
signature issued before any settles, exactly one underlying network call
is made, the first caller starts the shared promise and all later callers
join that same promise (so all receive the same resolution), and the
in-flight entry for the signature is gone once the call settles. -/
theorem get_inflight_coalescing (st : GatewayState) (sig : String) (now N : Nat)
    (hc : cacheGet st.cache sig = none) (hf : alistLookup st.inFlight sig = none)
    (hN : 1 ≤ N) (res : Except String Nat) (later : Nat) :
    (startGetN N st sig now).2.netCalls = st.netCalls + 1 ∧
    (startGetN N st sig now).1
      = GetOutcome.started st.nextId
        :: List.replicate (N - 1) (GetOutcome.joined st.nextId) ∧
    alistLookup (settleGet (startGetN N st sig now).2 sig res later).inFlight sig
      = none := by
  obtain ⟨M, rfl⟩ : ∃ M, N = M + 1 := ⟨N - 1, by omega⟩
  have h1 := startGet_fresh st sig now hc hf
  have hc1 : cacheGet (⟨st.cache, (sig, st.nextId) :: st.inFlight,
      st.nextId + 1, st.netCalls + 1⟩ : GatewayState).cache sig = none := hc
  have hf1 : alistLookup (⟨st.cache, (sig, st.nextId) :: st.inFlight,
      st.nextId + 1, st.netCalls + 1⟩ : GatewayState).inFlight sig
      = some st.nextId := by
    simp [alistLookup, List.find?]
  have hrest := startGetN_join sig now st.nextId M _ hc1 hf1
  have hall : startGetN (M + 1) st sig now
      = (GetOutcome.started st.nextId :: List.replicate M (GetOutcome.joined st.nextId),
         ⟨st.cache, (sig, st.nextId) :: st.inFlight, st.nextId + 1, st.netCalls + 1⟩) := by
    simp [startGetN, h1, hrest]
  refine ⟨by rw [hall], by rw [hall]; simp, ?_⟩
  rw [hall]
  simp [settleGet, alistLookup_remove]

/-- C2 witness: three concurrent GETs on an empty gateway make one network
call, share promise 0, and the in-flight entry is removed at settlement. -/
theorem get_inflight_coalescing_witness :
    (startGetN 3 ⟨[], [], 0, 0⟩ "/complaints?limit=200" 0).2.netCalls = 0 + 1 ∧
    (startGetN 3 ⟨[], [], 0, 0⟩ "/complaints?limit=200" 0).1
      = GetOutcome.started 0 :: List.replicate (3 - 1) (GetOutcome.joined 0) ∧
    alistLookup (settleGet (startGetN 3 ⟨[], [], 0, 0⟩ "/complaints?limit=200" 0).2
      "/complaints?limit=200" (Except.ok 7) 5).inFlight "/complaints?limit=200" = none :=
  get_inflight_coalescing ⟨[], [], 0, 0⟩ "/complaints?limit=200" 0 3 rfl rfl
    (by decide) (Except.ok 7) 5

/-- C3: a cache entry written at `e.ts` is served without any network call
when read at a time within the TTL, and at a time beyond the TTL it is
removed and a fresh network call is started. -/
theorem cache_ttl_boundary (st : GatewayState) (sig : String) (e : CacheEntry)
    (t1 t2 : Nat) (hc : cacheGet st.cache sig = some e)
    (hts1 : e.ts ≤ t1) (h1 : t1 - e.ts ≤ CACHE_TTL)
    (hts2 : e.ts ≤ t2) (h2 : CACHE_TTL < t2 - e.ts)
    (hf : alistLookup st.inFlight sig = none) :
    startGet st sig t1 = (GetOutcome.hit e.data, st) ∧
    ((startGet st sig t2).1 = GetOutcome.started st.nextId ∧
     (startGet st sig t2).2.netCalls = st.netCalls + 1 ∧
     cacheGet (startGet st sig t2).2.cache sig = none) := by
  have hc2 : alistLookup st.cache sig = some e := hc
  constructor
  · have hcond : ¬ (CACHE_TTL < t1 - e.ts) := by omega
    simp [startGet, getCached, cacheGet, hc2, hcond]
  · have hcond : CACHE_TTL < t2 - e.ts := h2
    refine ⟨?_, ?_, ?_⟩ <;>
      simp [startGet, getCached, cacheGet, hc2, hcond, hf, alistLookup_remove]

/-- C3 witness: with TTL 15000 and an entry written at time 1000, a read at
16000 hits the cache and a read at 16001 evicts and refetches. -/
theorem cache_ttl_boundary_witness :
    startGet ⟨[("/complaints?limit=200", ⟨42, 1000⟩)], [], 0, 0⟩
      "/complaints?limit=200" 16000
      = (GetOutcome.hit 42, ⟨[("/complaints?limit=200", ⟨42, 1000⟩)], [], 0, 0⟩) ∧
    ((startGet ⟨[("/complaints?limit=200", ⟨42, 1000⟩)], [], 0, 0⟩
        "/complaints?limit=200" 16001).1 = GetOutcome.started 0 ∧
     (startGet ⟨[("/complaints?limit=200", ⟨42, 1000⟩)], [], 0, 0⟩
        "/complaints?limit=200" 16001).2.netCalls = 0 + 1 ∧
     cacheGet (startGet ⟨[("/complaints?limit=200", ⟨42, 1000⟩)], [], 0, 0⟩
        "/complaints?limit=200" 16001).2.cache "/complaints?limit=200" = none) :=
  cache_ttl_boundary ⟨[("/complaints?limit=200", ⟨42, 1000⟩)], [], 0, 0⟩
    "/complaints?limit=200" ⟨42, 1000⟩ 16000 16001 rfl (by decide) (by decide)
    (by decide) (by decide) rfl

/-- C1: when the gateway call of `updateComplaintStatus` fails, the
coordinator restores the exact pre-mutation complaint list and re-raises
the error, so no partial-success state is observable. -/
theorem updateComplaintStatus_rollback (st : CoordSt) (id status : String)
    (note officer : Option String) (today : String)
    (net : String → Except String (Option Complaint)) (e : String)
    (hnet : net (getMongoId st.complaints id) = Except.error e) :
    (updateComplaintStatusRun st id status note officer today net).1.complaints
      = st.complaints ∧
    (updateComplaintStatusRun st id status note officer today net).2 = some e := by
  simp [updateComplaintStatusRun, hnet]

/-- C1 witness: a concrete failed status update leaves the one-element
list untouched and re-raises the network error. -/
theorem updateComplaintStatus_rollback_witness :
    (updateComplaintStatusRun ⟨[cW], [cW]⟩ "JV-2026-00002" "In Progress" none none
       "2026-02-02" (fun _ => Except.error "failed to fetch")).1.complaints = [cW] ∧
    (updateComplaintStatusRun ⟨[cW], [cW]⟩ "JV-2026-00002" "In Progress" none none
       "2026-02-02" (fun _ => Except.error "failed to fetch")).2
      = some "failed to fetch" :=
  updateComplaintStatus_rollback ⟨[cW], [cW]⟩ "JV-2026-00002" "In Progress" none none
    "2026-02-02" (fun _ => Except.error "failed to fetch") "failed to fetch" rfl

/-- C4 counterexample: the failure message "jwt malformed" is
auth-classified by the gateway vocabulary, yet the init effect keeps the
restored session and the token instead of tearing them down, because its
own vocabulary only matches the narrower two-word phrases. -/
theorem restore_session_auth_teardown_counterexample :
    isAuthError "jwt malformed" = true ∧
    isRealAuthError "jwt malformed" = false ∧
    (initRun (some "tok123") (some uW) (Except.error "jwt malformed")).currentUser
      = some uW ∧
    (initRun (some "tok123") (some uW) (Except.error "jwt malformed")).tokenPresent
      = true := by
  decide

/-- C4 amended: on cold start with a token and a cached user, the cached
session is published synchronously before the revalidation call resolves;
revalidation failures matching the init effect vocabulary (401, 403,
jwt expired, token invalid, token expired, not authorized, unauthorized)
tear the session down, and all other failures keep the restored session
and stored user unchanged. -/
theorem restore_session_classification (tok : String) (u : User) (e1 e2 : String)
    (h1 : isRealAuthError e1 = true) (h2 : isRealAuthError e2 = false) :
    (∀ net, ∃ evs, (initRun (some tok) (some u) net).events
        = InitEv.publishUser (some u) :: InitEv.netGetMe :: evs) ∧
    initRun (some tok) (some u) (Except.error e1)
      = ⟨[InitEv.publishUser (some u), InitEv.netGetMe, InitEv.publishUser none],
         none, false, none⟩ ∧
    initRun (some tok) (some u) (Except.error e2)
      = ⟨[InitEv.publishUser (some u), InitEv.netGetMe], some u, true, some u⟩ := by
  refine ⟨?_, ?_, ?_⟩
  · intro net
    cases net with
    | ok r =>
      cases r with
      | some ru => exact ⟨_, rfl⟩
      | none => exact ⟨_, rfl⟩
    | error e =>
      by_cases h : isRealAuthError e = true
      · exact ⟨[InitEv.publishUser none], by simp [initRun, h]⟩
      · exact ⟨[], by simp [initRun, h]⟩
  · simp [initRun, h1]
  · simp [initRun, h2]

/-- C4 amended witness: a "jwt expired" failure tears the restored session
down; a "failed to fetch" network failure keeps it. -/
theorem restore_session_classification_witness :
    (∀ net, ∃ evs, (initRun (some "tok123") (some uW) net).events
        = InitEv.publishUser (some uW) :: InitEv.netGetMe :: evs) ∧
    initRun (some "tok123") (some uW) (Except.error "jwt expired")
      = ⟨[InitEv.publishUser (some uW), InitEv.netGetMe, InitEv.publishUser none],
         none, false, none⟩ ∧
    initRun (some "tok123") (some uW) (Except.error "failed to fetch")
      = ⟨[InitEv.publishUser (some uW), InitEv.netGetMe], some uW, true, some uW⟩ :=
  restore_session_classification "tok123" uW "jwt expired" "failed to fetch"
    (by decide) (by decide)

/-- C6 counterexample: the coordinator submitFeedback has no local
pre-validation: with a target that is not in the Resolved state, the
network call is still issued (the server, not the client, rejects it). -/
theorem feedback_local_reject_counterexample :
    cSub.status ≠ "Resolved" ∧ cSub.feedback = none ∧
    (submitFeedbackRun [cSub] uW "JV-2026-00001" fbW
      (fun _ => Except.error "Can only rate resolved complaints")).networkCalled
      = true := by
  decide

/-- C6 amended: submitFeedback always issues the network call; the
validation lives in the server controller, which rejects a target that is
not Resolved or already has feedback without storing anything; on a
successful response the submitter gains 25 points locally. -/
theorem feedback_validation (c : ServerComplaint) (uid : String) (fb fb0 : Feedback)
    (cs : List Complaint) (u : User) (id : String)
    (net : String → Except String (Option Complaint)) (r : Option Complaint)
    (hnr : c.status ≠ "Resolved")
    (hnet : net (getMongoId cs id) = Except.ok r) :
    (∀ cs2 u2 id2 fb2 net2,
       (submitFeedbackRun cs2 u2 id2 fb2 net2).networkCalled = true) ∧
    submitFeedbackServer c uid fb = Except.error "Can only rate resolved complaints" ∧
    (∀ c2 : ServerComplaint, c2.status = "Resolved" → c2.citizenId = uid →
       c2.feedback = some fb0 →
       submitFeedbackServer c2 uid fb = Except.error "Already submitted feedback") ∧
    (submitFeedbackRun cs u id fb net).user.points = jsOrN u.points 0 + 25 ∧
    (submitFeedbackRun cs u id fb net).err = none := by
  refine ⟨?_, ?_, ?_, ?_, ?_⟩
  · intro cs2 u2 id2 fb2 net2
    simp only [submitFeedbackRun]
    split <;> rfl
  · unfold submitFeedbackServer
    have hb : (c.status != "Resolved") = true := by
      simp [bne_iff_ne]; exact hnr
    rw [hb]
    rfl
  · intro c2 hs hc hfb
    unfold submitFeedbackServer
    have hb : (c2.status != "Resolved") = false := by simp [hs]
    have hb2 : (c2.citizenId != uid) = false := by simp [hc]
    rw [hb, hb2, hfb]
    rfl
  · simp only [submitFeedbackRun]
    rw [hnet]
  · simp only [submitFeedbackRun]
    rw [hnet]

/-- C6 amended witness: concrete unresolved complaint rejected by the
server, and a successful concrete run awarding 25 points locally. -/
theorem feedback_validation_witness :
    (∀ cs2 u2 id2 fb2 net2,
       (submitFeedbackRun cs2 u2 id2 fb2 net2).networkCalled = true) ∧
    submitFeedbackServer scW "u1" fbW
      = Except.error "Can only rate resolved complaints" ∧
    (∀ c2 : ServerComplaint, c2.status = "Resolved" → c2.citizenId = "u1" →
       c2.feedback = some fbW →
       submitFeedbackServer c2 "u1" fbW = Except.error "Already submitted feedback") ∧
    (submitFeedbackRun [cSub] uW "JV-2026-00001" fbW
       (fun _ => Except.ok none)).user.points = jsOrN uW.points 0 + 25 ∧
    (submitFeedbackRun [cSub] uW "JV-2026-00001" fbW
       (fun _ => Except.ok none)).err = none :=
  feedback_validation scW "u1" fbW fbW [cSub] uW "JV-2026-00001"
    (fun _ => Except.ok none) none (by decide) rfl

/-- C7 counterexample: after a status mutation on a complaint, a list
entry cached under the bare signature slash complaints (as produced by a
parameterless getAll) survives invalidation, although the claim requires
the complaint-list entry to be invalidated. -/
theorem mutation_invalidation_counterexample :
    cacheGet (mutateInvalidate "/complaints/abc123/status"
      [("/complaints", ⟨7, 0⟩)]) "/complaints" = some ⟨7, 0⟩ := by
  decide

theorem cacheGet_invalidate_of_match (patterns : List String)
    (c : List (String × CacheEntry)) (k : String)
    (h : patterns.any (fun p => strContains k p) = true) :
    cacheGet (invalidateCache patterns c) k = none := by
  have hfind : (invalidateCache patterns c).find? (fun p => p.1 == k) = none := by
    rw [List.find?_eq_none]
    intro p hp
    have hmem := List.mem_filter.mp hp
    intro hbeq
    have hk : p.1 = k := by simpa using hbeq
    have := hmem.2
    rw [hk] at this
    simp [h] at this
  simp [cacheGet, alistLookup, hfind]

theorem cacheGet_invalidate_of_nomatch (patterns : List String)
    (c : List (String × CacheEntry)) (k : String) (e : CacheEntry)
    (h : patterns.any (fun p => strContains k p) = false)
    (hk : cacheGet c k = some e) :
    cacheGet (invalidateCache patterns c) k = some e := by
  induction c with
  | nil => simp [cacheGet, alistLookup] at hk
  | cons p t ih =>
    by_cases hb : (p.1 == k) = true
    · have hp1 : p.1 = k := by simpa using hb
      have he : e = p.2 := by
        simp [cacheGet, alistLookup, List.find?, hb] at hk
        exact hk.symm
      have hkeep : (patterns.any (fun q => strContains p.1 q)) = false := by
        rw [hp1]; exact h
      simp [invalidateCache, List.filter, hkeep, cacheGet, alistLookup, List.find?, hb, he]
    · have hk2 : cacheGet t k = some e := by
        simp [cacheGet, alistLookup, List.find?, hb] at hk ⊢
        exact hk
      have ih2 := ih hk2
      by_cases hkeep : (patterns.any (fun q => strContains p.1 q)) = true
      · simpa [invalidateCache, List.filter, hkeep] using ih2
      · have hkeep2 : (patterns.any (fun q => strContains p.1 q)) = false := by
          simpa using hkeep
        simp [invalidateCache, List.filter, hkeep2, cacheGet, alistLookup, List.find?, hb] at ih2 ⊢
        exact ih2

/-- C7 amended: a non-GET request never reads or populates the response
cache by its signature (it always issues a fresh network call and leaves
the cache untouched at both phases), and a complaint-item mutation deletes
exactly the cache keys containing one of the three substring patterns (the
mutation URL id segment, slash complaints query, slash complaints stats):
every key containing one of them is removed and every other key — the
leaderboard entry, or a list entry cached under the bare slash complaints
signature — keeps its entry unchanged. -/
theorem mutation_invalidation_selective (ep : String)
    (c : List (String × CacheEntry)) (k : String) (e : CacheEntry)
    (him : isComplaintItemMutation ep = true) (hk : cacheGet c k = some e) :
    ((["/complaints/" ++ complaintIdOf ep, "/complaints?", "/complaints/stats"].any
        (fun p => strContains k p) = true →
      cacheGet (mutateInvalidate ep c) k = none) ∧
     (["/complaints/" ++ complaintIdOf ep, "/complaints?", "/complaints/stats"].any
        (fun p => strContains k p) = false →
      cacheGet (mutateInvalidate ep c) k = some e)) ∧
    (∀ (st : GatewayState) (method : Option String) (sig : String) (now : Nat)
       (res : Except String Nat), isGetMethod method = false →
       (startRequest st method sig now).1 = GetOutcome.started st.nextId ∧
       (startRequest st method sig now).2.cache = st.cache ∧
       (settleRequest st method sig res now).cache = st.cache) := by
  refine ⟨⟨?_, ?_⟩, ?_⟩
  · intro h
    unfold mutateInvalidate
    rw [him]
    simp only [if_true]
    exact cacheGet_invalidate_of_match _ c k h
  · intro h
    unfold mutateInvalidate
    rw [him]
    simp only [if_true]
    exact cacheGet_invalidate_of_nomatch _ c k e h hk
  · intro st method sig now res hm
    refine ⟨?_, ?_, ?_⟩
    · simp [startRequest, hm]
    · simp [startRequest, hm]
    · simp [settleRequest, hm]

/-- C7 amended witness: resolving a complaint through its storage id
removes the query-list entry but keeps the leaderboard entry cached, and a
non-GET request leaves the cache alone. -/
theorem mutation_invalidation_selective_witness :
    ((["/complaints/" ++ complaintIdOf "/complaints/m1/resolve", "/complaints?",
        "/complaints/stats"].any
        (fun p => strContains "/users/leaderboard?global=true" p) = true →
      cacheGet (mutateInvalidate "/complaints/m1/resolve"
        [("/users/leaderboard?global=true", ⟨9, 0⟩)])
        "/users/leaderboard?global=true" = none) ∧
     (["/complaints/" ++ complaintIdOf "/complaints/m1/resolve", "/complaints?",
        "/complaints/stats"].any
        (fun p => strContains "/users/leaderboard?global=true" p) = false →
      cacheGet (mutateInvalidate "/complaints/m1/resolve"
        [("/users/leaderboard?global=true", ⟨9, 0⟩)])
        "/users/leaderboard?global=true" = some ⟨9, 0⟩)) ∧
    (∀ (st : GatewayState) (method : Option String) (sig : String) (now : Nat)
       (res : Except String Nat), isGetMethod method = false →
       (startRequest st method sig now).1 = GetOutcome.started st.nextId ∧
       (startRequest st method sig now).2.cache = st.cache ∧
       (settleRequest st method sig res now).cache = st.cache) :=
  mutation_invalidation_selective "/complaints/m1/resolve"
    [("/users/leaderboard?global=true", ⟨9, 0⟩)] "/users/leaderboard?global=true"
    ⟨9, 0⟩ (by decide) rfl

theorem support_step_roundtrip (x : Complaint) (id : String) :
    (fun y => if matchId y id then
        { y with supportCount := max 0 (jsOrN y.supportCount 1 - 1) } else y)
      ((fun y => if matchId y id then
        { y with supportCount := jsOrN y.supportCount 0 + 1 } else y) x) = x := by
  by_cases hm : matchId x id = true
  · have h1 : jsOrN x.supportCount 0 = x.supportCount := by
      unfold jsOrN; split <;> simp_all
    have h2 : matchId { x with supportCount := jsOrN x.supportCount 0 + 1 } id
        = matchId x id := rfl
    simp only [hm, if_true, h2]
    have h3 : jsOrN (jsOrN x.supportCount 0 + 1) 1 = x.supportCount + 1 := by
      rw [h1]; unfold jsOrN; split <;> simp_all
    simp [h3]
  · simp only [Bool.not_eq_true] at hm
    simp [hm]

theorem support_roundtrip (cs : List Complaint) (id : String) :
    rollbackSupport (optimisticSupport cs id) id = cs := by
  unfold rollbackSupport optimisticSupport
  induction cs with
  | nil => rfl
  | cons x t ih =>
    simp only [List.map_cons]
    rw [ih]
    congr 1
    exact support_step_roundtrip x id

/-- C8 counterexample: updateUser with a failing network call keeps the
optimistic profile (different from the pre-mutation user) and surfaces no
error — the failure is swallowed, contradicting the claim that every
coordinator mutation restores state and re-raises. -/
theorem updateUser_swallows_counterexample :
    (updateUserRun uW patchW (Except.error "failed to fetch")).2 = none ∧
    (updateUserRun uW patchW (Except.error "failed to fetch")).1 ≠ uW := by
  decide

/-- C8 amended: the complaint mutations (status update, resolve, delete,
support) all restore the pre-mutation state and re-raise a failed network
call; updateUser alone swallows the failure and keeps the optimistic
merge of the patch. -/
theorem mutation_error_propagation (st : CoordSt)
    (id status photo note2 officer2 today : String)
    (note officer : Option String) (e : String)
    (netC netR : String → Except String (Option Complaint))
    (netD : String → Except String Unit)
    (netS : String → Except String (Option Nat))
    (cu : User) (p : UserPatch)
    (hC : netC (getMongoId st.complaints id) = Except.error e)
    (hR : netR (getMongoId st.complaints id) = Except.error e)
    (hD : netD (getMongoId st.complaints id) = Except.error e)
    (hS : netS (getMongoId st.complaints id) = Except.error e) :
    updateComplaintStatusRun st id status note officer today netC
      = (⟨st.complaints, st.complaints⟩, some e) ∧
    resolveComplaintRun st id photo note2 officer2 today netR
      = (⟨st.complaints, st.complaints⟩, some e) ∧
    deleteComplaintRun st id netD = (⟨st.complaints, st.complaints⟩, some e) ∧
    supportComplaintRun st.complaints id netS = (st.complaints, some e) ∧
    (updateUserRun cu p (Except.error e)).2 = none ∧
    (updateUserRun cu p (Except.error e)).1 = applyPatch cu p := by
  refine ⟨?_, ?_, ?_, ?_, rfl, rfl⟩
  · simp only [updateComplaintStatusRun]
    rw [hC]
  · simp only [resolveComplaintRun]
    rw [hR]
  · simp only [deleteComplaintRun]
    rw [hD]
  · simp only [supportComplaintRun]
    rw [hS, support_roundtrip]

/-- C8 amended witness: concrete failing mutations all roll back and
re-raise, while the concrete failing updateUser keeps the optimistic
patch and reports no error. -/
theorem mutation_error_propagation_witness :
    updateComplaintStatusRun ⟨[cW], [cW]⟩ "JV-2026-00002" "Under Review" none none
      "2026-02-02" (fun _ => Except.error "failed to fetch")
      = (⟨[cW], [cW]⟩, some "failed to fetch") ∧
    resolveComplaintRun ⟨[cW], [cW]⟩ "JV-2026-00002" "photo.jpg" "done" "Officer K"
      "2026-02-02" (fun _ => Except.error "failed to fetch")
      = (⟨[cW], [cW]⟩, some "failed to fetch") ∧
    deleteComplaintRun ⟨[cW], [cW]⟩ "JV-2026-00002"
      (fun _ => Except.error "failed to fetch")
      = (⟨[cW], [cW]⟩, some "failed to fetch") ∧
    supportComplaintRun [cW] "JV-2026-00002" (fun _ => Except.error "failed to fetch")
      = ([cW], some "failed to fetch") ∧
    (updateUserRun uW patchW (Except.error "failed to fetch")).2 = none ∧
    (updateUserRun uW patchW (Except.error "failed to fetch")).1
      = applyPatch uW patchW :=
  mutation_error_propagation ⟨[cW], [cW]⟩ "JV-2026-00002" "Under Review" "photo.jpg"
    "done" "Officer K" "2026-02-02" none none "failed to fetch"
    (fun _ => Except.error "failed to fetch") (fun _ => Except.error "failed to fetch")
    (fun _ => Except.error "failed to fetch") (fun _ => Except.error "failed to fetch")
    uW patchW rfl rfl rfl rfl

theorem advanceTimeline_getQ (today : String) (k : Nat) :
    ∀ (tl : List TimelineStep) (i j : Nat),
      (advanceTimeline today k i tl)[j]? = (tl[j]?).map (fun s =>
        if 1 ≤ i + j && i + j ≤ k && !s.done then
          { s with done := true, date := some today } else s) := by
  intro tl
  induction tl with
  | nil => intro i j; simp [advanceTimeline]
  | cons s rest ih =>
    intro i j
    cases j with
    | zero => simp [advanceTimeline]
    | succ n =>
      have h2 := ih (i + 1) n
      simp only [advanceTimeline, List.getElem?_cons_succ]
      rw [h2]
      have harith : i + 1 + n = i + (n + 1) := by omega
      rw [harith]

/-- C9: an admin status transition whose status maps to timeline step k
succeeds, and in the result every timeline step with index at most k is
done with a non-null date (given the creation invariants that step 0 is
done and done steps carry dates), the done flags never decrease across
the transition, and the status field matches the transition — status and
timeline stay mutually consistent. -/
theorem timeline_status_consistency (c : ServerComplaint) (status today : String)
    (note officer : Option String) (k : Nat)
    (hk : statusToStep status = some k)
    (hinv : ∀ s ∈ c.timeline, s.done = true → s.date ≠ none)
    (h0 : ∀ s : TimelineStep, c.timeline[0]? = some s → s.done = true) :
    ∃ c2 : ServerComplaint,
      updateStatusServer c status note officer today = Except.ok c2 ∧
      (∀ (i : Nat) (s : TimelineStep), i ≤ k → c2.timeline[i]? = some s →
         s.done = true ∧ s.date ≠ none) ∧
      (∀ (j : Nat) (s s2 : TimelineStep), c.timeline[j]? = some s →
         c2.timeline[j]? = some s2 → s.done = true → s2.done = true) ∧
      c2.status = status := by
  have hne : (status == "") = false := by
    cases hb : status == "" with
    | true =>
      have hs : status = "" := by simpa using hb
      rw [hs] at hk
      simp [statusToStep] at hk
    | false => rfl
  refine ⟨{ c with
      timeline := advanceTimeline today k 0 c.timeline,
      status := status,
      adminNote := match note with
        | some n => if n == "" then c.adminNote else n
        | none => c.adminNote,
      assignedOfficer := match officer with
        | some o => if o == "" then c.assignedOfficer else o
        | none => c.assignedOfficer }, ?_, ?_, ?_, rfl⟩
  · unfold updateStatusServer
    rw [hne, hk]
    rfl
  · intro i s hi hs
    have hs2 : (advanceTimeline today k 0 c.timeline)[i]? = some s := hs
    rw [advanceTimeline_getQ] at hs2
    cases hg : c.timeline[i]? with
    | none => rw [hg] at hs2; simp at hs2
    | some s0 =>
      rw [hg] at hs2
      simp only [Option.map_some'] at hs2
      rw [Option.some.injEq] at hs2
      have hmem : s0 ∈ c.timeline := mem_of_getElemQ c.timeline i s0 hg
      cases i with
      | zero =>
        have hdone0 : s0.done = true := h0 s0 hg
        rw [hdone0] at hs2
        simp at hs2
        rw [← hs2]
        exact ⟨hdone0, hinv s0 hmem hdone0⟩
      | succ n =>
        cases hd : s0.done with
        | true =>
          rw [hd] at hs2
          simp at hs2
          rw [← hs2]
          exact ⟨hd, hinv s0 hmem hd⟩
        | false =>
          rw [hd] at hs2
          have hcond : (1 ≤ 0 + (n + 1) && 0 + (n + 1) ≤ k && !false) = true := by
            simp
            omega
          rw [hcond] at hs2
          simp at hs2
          rw [← hs2]
          exact ⟨rfl, by simp⟩
  · intro j s s2 hcs hcs2 hdone
    have hs2 : (advanceTimeline today k 0 c.timeline)[j]? = some s2 := hcs2
    rw [advanceTimeline_getQ, hcs] at hs2
    simp only [Option.map_some'] at hs2
    rw [Option.some.injEq] at hs2
    rw [hdone] at hs2
    simp at hs2
    rw [← hs2]
    exact hdone

/-- C9 witness: a freshly created complaint transitioned to In Progress
(step 2) yields a result whose steps up to index 2 are done with dates,
whose done flags are monotone, and whose status is In Progress. -/
theorem timeline_status_consistency_witness :
    ∃ c2 : ServerComplaint,
      updateStatusServer scW "In Progress" none none "2026-02-02" = Except.ok c2 ∧
      (∀ (i : Nat) (s : TimelineStep), i ≤ 2 → c2.timeline[i]? = some s →
         s.done = true ∧ s.date ≠ none) ∧
      (∀ (j : Nat) (s s2 : TimelineStep), scW.timeline[j]? = some s →
         c2.timeline[j]? = some s2 → s.done = true → s2.done = true) ∧
      c2.status = "In Progress" :=
  timeline_status_consistency scW "In Progress" "2026-02-02" none none 2
    (by decide) (by decide)
    (fun s hs => by
      have h2 : some (⟨"Submitted", true, some "2026-01-01"⟩ : TimelineStep) = some s := hs
      cases h2
      rfl)

/-- C10: support is idempotent per identity: one successful server-side
support call raises supportCount by exactly one (under the invariant that
the counter equals the supporter-set size); a second call from the same
identity is rejected with the already-supported error; and the failure
rollback in the coordinator reverts the optimistic increment by exactly
one unit, leaving the local list equal to its pre-attempt value. -/
theorem support_idempotent_unit (c : ServerComplaint) (u : String)
    (cs : List Complaint) (id e : String)
    (net : String → Except String (Option Nat))
    (h1 : c.supportedBy.contains u = false)
    (h2 : c.supportCount = c.supportedBy.length)
    (hnet : net (getMongoId cs id) = Except.error e) :
    (∃ c2 : ServerComplaint,
       supportComplaintServer c u = Except.ok (c2, c.supportCount + 1) ∧
       c2.supportCount = c.supportCount + 1 ∧
       supportComplaintServer c2 u = Except.error "Already supported") ∧
    supportComplaintRun cs id net = (cs, some e) := by
  constructor
  · refine ⟨{ c with
      supportedBy := c.supportedBy ++ [u],
      supportCount := (c.supportedBy ++ [u]).length }, ?_, ?_, ?_⟩
    · unfold supportComplaintServer
      rw [h1]
      simp [h2]
    · simp [h2]
    · unfold supportComplaintServer
      have hcontains : ((c.supportedBy ++ [u]).contains u) = true := by
        simp
      rw [hcontains]
      rfl
  · simp only [supportComplaintRun]
    rw [hnet, support_roundtrip]

/-- C10 witness: a first support by u9 on a fresh complaint returns count
1 and a second is rejected; a failed support attempt on the concrete local
list is rolled back to exactly the pre-attempt list. -/
theorem support_idempotent_unit_witness :
    (∃ c2 : ServerComplaint,
       supportComplaintServer scW "u9" = Except.ok (c2, scW.supportCount + 1) ∧
       c2.supportCount = scW.supportCount + 1 ∧
       supportComplaintServer c2 "u9" = Except.error "Already supported") ∧
    supportComplaintRun [cW] "JV-2026-00002"
      (fun _ => Except.error "Already supported") = ([cW], some "Already supported") :=
  support_idempotent_unit scW "u9" [cW] "JV-2026-00002" "Already supported"
    (fun _ => Except.error "Already supported") (by decide) rfl rfl
